import Mathlib

/-!
Verification development for the coordinate-distance-calculator core
(`src/lib/geo.ts` and `src/lib/coordinate-providers.ts`).

The JavaScript number type is embedded as an arbitrary `LinearOrderedField`
(with a `FloorRing` where the source uses the `%` remainder operator).
The transcendental primitives of `Math` (`sin`, `cos`, `tan`, `atan`,
`asin`, `atan2`, `sqrt`) and the constant `Math.PI` are collected in a
`GeoOps` record; the concrete interpretation `realOps` instantiates them
with the real functions.  `NaN`/`Infinity` do not exist in an exact
ordered field, so `Number.isNaN` is constantly false and
`Number.isFinite` constantly true in this model; the corresponding
branches of the source are kept but are dead.

Strings are processed over `List Char`.  The regular expressions of the
source are embedded as terms of a small regex AST (`RE`) executed by a
fuel-bounded backtracking matcher with JavaScript semantics (leftmost
match, greedy quantifiers, capture groups); the fuel is far larger than
any search performed here can consume.
-/

set_option maxRecDepth 20000

namespace CoordCalc

/-! ## Scalar primitives -/

/-- The `Math` primitives used by `geo.ts`, abstracted over the scalar
field.  `realOps` below is the standard real-valued interpretation. -/
structure GeoOps (K : Type) where
  pi : K
  sin : K → K
  cos : K → K
  tan : K → K
  atan : K → K
  asin : K → K
  atan2 : K → K → K
  sqrt : K → K

variable {K : Type} [LinearOrderedField K]

/-- Truncation toward zero, as used by the JavaScript `%` operator. -/
def jsTrunc [FloorRing K] (q : K) : ℤ :=
  if 0 ≤ q then Int.floor q else Int.ceil q

/-- The JavaScript remainder operator `a % b`: `a - b * trunc (a / b)`. -/
def jsRem [FloorRing K] (a b : K) : K :=
  a - b * (jsTrunc (a / b) : K)

/-- `geo.ts` `normalizeLon`: `((lon + 540) % 360) - 180`.  The
`Number.isNaN` fallback of the source can never fire in an exact ordered
field, so the computed value is always returned. -/
def normalizeLon [FloorRing K] (lon : K) : K :=
  jsRem (lon + 540) 360 - 180

/-- `geo.ts` `toRad`. -/
def toRad (ops : GeoOps K) (value : K) : K :=
  value * ops.pi / 180

/-- `geo.ts` `toDeg`. -/
def toDeg (ops : GeoOps K) (value : K) : K :=
  value * 180 / ops.pi

/-! ## Data model -/

/-- `geo.ts` `GlobeCoordinate`: `{ lat, lon }`. -/
structure GlobeCoordinate (K : Type) where
  lat : K
  lon : K
deriving DecidableEq

/-- `geo.ts` `FlatCoordinate`: `{ x, y, z }`. -/
structure FlatCoordinate (K : Type) where
  x : K
  y : K
  z : K
deriving DecidableEq

/-- `geo.ts` `ParseResult<T>`: `{ ok: true, value }` or
`{ ok: false, error }`. -/
inductive ParseResult (T : Type) where
  | ok : T → ParseResult T
  | err : String → ParseResult T
deriving DecidableEq

/-- `geo.ts` `GlobeAlgorithm`. -/
inductive GlobeAlgorithm where
  | haversine
  | vincenty
  | equirect
deriving DecidableEq

/-- `geo.ts` `FlatAlgorithm`. -/
inductive FlatAlgorithm where
  | euclidean2d
  | euclidean3d
  | manhattan2d
deriving DecidableEq

/-! ## Constants (`geo.ts` lines 37–40) -/

def EARTH_RADIUS_M : K := 6371008.8

def WGS84_A : K := 6378137

def WGS84_B : K := 6356752.314245

def WGS84_F : K := 1 / 298.257223563

/-! ## Distance engine -/

/-- `geo.ts` `haversineDistanceMeters`. -/
def haversineDistanceMeters (ops : GeoOps K) (a b : GlobeCoordinate K) : K :=
  let dLat := toRad ops (b.lat - a.lat)
  let dLon := toRad ops (b.lon - a.lon)
  let lat1 := toRad ops a.lat
  let lat2 := toRad ops b.lat
  let h := ops.sin (dLat / 2) * ops.sin (dLat / 2) +
    ops.cos lat1 * ops.cos lat2 * ops.sin (dLon / 2) * ops.sin (dLon / 2)
  let c := 2 * ops.atan2 (ops.sqrt h) (ops.sqrt (1 - h))
  EARTH_RADIUS_M * c

/-- The mutable state of the Vincenty λ-iteration (`geo.ts` lines
225–234): current and previous λ plus the quantities written on each
pass and read after the loop. -/
structure VinState (K : Type) where
  lambda : K
  lambdaP : K
  sinSigma : K
  cosSigma : K
  sigma : K
  sinAlpha : K
  cosSqAlpha : K
  cos2SigmaM : K
deriving DecidableEq

/-- Outcome of the Vincenty while-loop: either the early `return 0`
taken when `sinSigma === 0`, or the loop exited with final state and
iteration count. -/
inductive VinOutcome (K : Type) where
  | zero : VinOutcome K
  | done : VinState K → Nat → VinOutcome K
deriving DecidableEq

/-- The while-loop of `vincentyDistanceMeters` (`geo.ts` lines 236–271).
The guard `|λ - λ'| > 1e-12 && iteration < 200` is checked first, as in
the source; the fuel only bounds the recursion and is always larger
than the iteration cap, so the fuel-exhaustion branch is unreachable. -/
def vincentyLoop (ops : GeoOps K) (L sinU1 cosU1 sinU2 cosU2 : K) :
    Nat → VinState K → Nat → VinOutcome K
  | fuel, st, iteration =>
    if 1e-12 < |st.lambda - st.lambdaP| ∧ iteration < 200 then
      match fuel with
      | 0 => .done st iteration
      | fuel + 1 =>
        let sinLambda := ops.sin st.lambda
        let cosLambda := ops.cos st.lambda
        let sinSigma := ops.sqrt
          ((cosU2 * sinLambda) * (cosU2 * sinLambda) +
            (cosU1 * sinU2 - sinU1 * cosU2 * cosLambda) *
              (cosU1 * sinU2 - sinU1 * cosU2 * cosLambda))
        if sinSigma = 0 then
          .zero
        else
          let cosSigma := sinU1 * sinU2 + cosU1 * cosU2 * cosLambda
          let sigma := ops.atan2 sinSigma cosSigma
          let sinAlpha := cosU1 * cosU2 * sinLambda / sinSigma
          let cosSqAlpha := 1 - sinAlpha * sinAlpha
          let cos2SigmaM :=
            if cosSqAlpha = 0 then 0
            else cosSigma - 2 * sinU1 * sinU2 / cosSqAlpha
          let C := WGS84_F / 16 * cosSqAlpha * (4 + WGS84_F * (4 - 3 * cosSqAlpha))
          vincentyLoop ops L sinU1 cosU1 sinU2 cosU2 fuel
            ⟨L + (1 - C) * WGS84_F * sinAlpha *
                (sigma + C * sinSigma *
                  (cos2SigmaM + C * cosSigma * (-1 + 2 * cos2SigmaM * cos2SigmaM))),
              st.lambda, sinSigma, cosSigma, sigma, sinAlpha, cosSqAlpha, cos2SigmaM⟩
            (iteration + 1)
    else .done st iteration

/-- Setup and loop of `vincentyDistanceMeters` (`geo.ts` lines 215–271):
`L`, the reduced latitudes `U1`, `U2`, initial `λ = L`, `λ' = 0`,
iteration `0`. -/
def vincentyLoopResult (ops : GeoOps K) (a b : GlobeCoordinate K) : VinOutcome K :=
  let L := toRad ops (b.lon - a.lon)
  let U1 := ops.atan ((1 - WGS84_F) * ops.tan (toRad ops a.lat))
  let U2 := ops.atan ((1 - WGS84_F) * ops.tan (toRad ops b.lat))
  vincentyLoop ops L (ops.sin U1) (ops.cos U1) (ops.sin U2) (ops.cos U2)
    201 ⟨L, 0, 0, 0, 0, 0, 0, 0⟩ 0

/-- `geo.ts` `vincentyDistanceMeters`: run the λ-iteration, return `0`
on the degenerate `sinσ = 0` case, fall back to Haversine when the loop
exited with `iteration >= 200`, and otherwise evaluate the closing
formula on the final loop state. -/
def vincentyDistanceMeters (ops : GeoOps K) (a b : GlobeCoordinate K) : K :=
  match vincentyLoopResult ops a b with
  | .zero => 0
  | .done st iteration =>
    if 200 ≤ iteration then haversineDistanceMeters ops a b
    else
      let uSq := st.cosSqAlpha * (WGS84_A * WGS84_A - WGS84_B * WGS84_B) / (WGS84_B * WGS84_B)
      let A := 1 + uSq / 16384 * (4096 + uSq * (-768 + uSq * (320 - 175 * uSq)))
      let B := uSq / 1024 * (256 + uSq * (-128 + uSq * (74 - 47 * uSq)))
      let deltaSigma := B * st.sinSigma *
        (st.cos2SigmaM + B / 4 *
          (st.cosSigma * (-1 + 2 * st.cos2SigmaM * st.cos2SigmaM) -
            B / 6 * st.cos2SigmaM * (-3 + 4 * st.sinSigma * st.sinSigma) *
              (-3 + 4 * st.cos2SigmaM * st.cos2SigmaM)))
      WGS84_B * A * (st.sigma - deltaSigma)

/-- `geo.ts` `equirectangularDistanceMeters`. -/
def equirectangularDistanceMeters (ops : GeoOps K) (a b : GlobeCoordinate K) : K :=
  let x := toRad ops (b.lon - a.lon) * ops.cos (toRad ops ((a.lat + b.lat) / 2))
  let y := toRad ops (b.lat - a.lat)
  ops.sqrt (x * x + y * y) * EARTH_RADIUS_M

/-- `geo.ts` `euclidean2DUnits`; `Math.hypot dx dy` is the square root
of the sum of squares. -/
def euclidean2DUnits (ops : GeoOps K) (a b : FlatCoordinate K) : K :=
  let dx := b.x - a.x
  let dy := b.y - a.y
  ops.sqrt (dx * dx + dy * dy)

/-- `geo.ts` `euclidean3DUnits`. -/
def euclidean3DUnits (ops : GeoOps K) (a b : FlatCoordinate K) : K :=
  let dx := b.x - a.x
  let dy := b.y - a.y
  let dz := b.z - a.z
  ops.sqrt (dx * dx + dy * dy + dz * dz)

/-- `geo.ts` `manhattan2DUnits`. -/
def manhattan2DUnits (a b : FlatCoordinate K) : K :=
  |b.x - a.x| + |b.y - a.y|

/-- `geo.ts` `calculateGlobeDistanceMeters`. -/
def calculateGlobeDistanceMeters (ops : GeoOps K) (algorithm : GlobeAlgorithm)
    (a b : GlobeCoordinate K) : K :=
  if algorithm = .haversine then haversineDistanceMeters ops a b
  else if algorithm = .vincenty then vincentyDistanceMeters ops a b
  else equirectangularDistanceMeters ops a b

/-- `geo.ts` `calculateFlatDistanceUnits`. -/
def calculateFlatDistanceUnits (ops : GeoOps K) (algorithm : FlatAlgorithm)
    (a b : FlatCoordinate K) : K :=
  if algorithm = .euclidean2d then euclidean2DUnits ops a b
  else if algorithm = .euclidean3d then euclidean3DUnits ops a b
  else manhattan2DUnits a b

/-! ## Geometry builders -/

/-- `geo.ts` `geographicMidpoint`. -/
def geographicMidpoint [FloorRing K] (ops : GeoOps K) (a b : GlobeCoordinate K) :
    GlobeCoordinate K :=
  let lat1 := toRad ops a.lat
  let lon1 := toRad ops a.lon
  let lat2 := toRad ops b.lat
  let dLon := toRad ops (b.lon - a.lon)
  let bx := ops.cos lat2 * ops.cos dLon
  let bY := ops.cos lat2 * ops.sin dLon
  let lat3 := ops.atan2 (ops.sin lat1 + ops.sin lat2)
    (ops.sqrt ((ops.cos lat1 + bx) * (ops.cos lat1 + bx) + bY * bY))
  let lon3 := lon1 + ops.atan2 bY (ops.cos lat1 + bx)
  ⟨toDeg ops lat3, normalizeLon (toDeg ops lon3)⟩

/-- `geo.ts` `flatMidpoint`. -/
def flatMidpoint (a b : FlatCoordinate K) : FlatCoordinate K :=
  ⟨(a.x + b.x) / 2, (a.y + b.y) / 2, (a.z + b.z) / 2⟩

/-- `geo.ts` `destinationPoint`. -/
def destinationPoint [FloorRing K] (ops : GeoOps K) (center : GlobeCoordinate K)
    (bearingDeg distanceMeters : K) : GlobeCoordinate K :=
  let distanceRatio := distanceMeters / EARTH_RADIUS_M
  let bearing := toRad ops bearingDeg
  let lat1 := toRad ops center.lat
  let lon1 := toRad ops center.lon
  let lat2 := ops.asin
    (ops.sin lat1 * ops.cos distanceRatio +
      ops.cos lat1 * ops.sin distanceRatio * ops.cos bearing)
  let lon2 := lon1 + ops.atan2
    (ops.sin bearing * ops.sin distanceRatio * ops.cos lat1)
    (ops.cos distanceRatio - ops.sin lat1 * ops.sin lat2)
  ⟨toDeg ops lat2, normalizeLon (toDeg ops lon2)⟩

/-- `geo.ts` `buildGeodesicCircle`: points at bearings `360 * i / steps`
for `i = 0 .. steps` inclusive. -/
def buildGeodesicCircle [FloorRing K] (ops : GeoOps K) (center : GlobeCoordinate K)
    (radiusMeters : K) (steps : Nat := 120) : List (GlobeCoordinate K) :=
  (List.range (steps + 1)).map fun (i : Nat) =>
    destinationPoint ops center (360 * (i : K) / (steps : K)) radiusMeters

/-! ## Interpretations of the scalar primitives -/

/-- `Math.atan2 y x` over the reals: the angle of the vector `(x, y)`
in `(-π, π]`, with `atan2 0 0 = 0`. -/
noncomputable def jsAtan2 (y x : ℝ) : ℝ :=
  if 0 < x then Real.arctan (y / x)
  else if x < 0 then
    (if 0 ≤ y then Real.arctan (y / x) + Real.pi else Real.arctan (y / x) - Real.pi)
  else if 0 < y then Real.pi / 2
  else if y < 0 then -(Real.pi / 2)
  else 0

/-- The standard interpretation: the `Math` object of the source. -/
noncomputable def realOps : GeoOps ℝ where
  pi := Real.pi
  sin := Real.sin
  cos := Real.cos
  tan := Real.tan
  atan := Real.arctan
  asin := Real.arcsin
  atan2 := jsAtan2
  sqrt := Real.sqrt

/-- An abstract rational interpretation of the scalar primitives under
which the Vincenty λ-iteration oscillates forever (`λ ↦ -λ`), used to
witness the iteration-cap fallback: `sqrt` is constantly `1` (so `sinσ`
never vanishes), `sin` is constantly `1`, `cos` is the identity,
`atan2 y x = -(x / f)`, and `pi = 180` makes `toRad` the identity. -/
def oscOps : GeoOps ℚ where
  pi := 180
  sin := fun _ => 1
  cos := fun x => x
  tan := fun _ => 1 / (1 - WGS84_F)
  atan := fun x => x
  asin := fun x => x
  atan2 := fun _ x => -(x / WGS84_F)
  sqrt := fun _ => 1

/-! ## String layer

Raw text is processed as `List Char`.  `jsTrim` models
`String.prototype.trim` (on the ASCII whitespace actually occurring in
the inputs considered here). -/

def isDigitC (c : Char) : Bool := '0' ≤ c && c ≤ '9'

def isJsSpace (c : Char) : Bool :=
  c = ' ' || c = '\t' || c = '\n' || c = '\r' || c.toNat = 11 || c.toNat = 12

def jsTrim (cs : List Char) : List Char :=
  ((cs.dropWhile isJsSpace).reverse.dropWhile isJsSpace).reverse

def startsWithL : List Char → List Char → Bool
  | [], _ => true
  | _ :: _, [] => false
  | p :: ps, c :: cs => p = c && startsWithL ps cs

/-! ## Regex engine

A small AST for the regular expressions appearing in the source, with a
continuation-passing backtracking matcher implementing JavaScript
semantics: alternation and `?`/`*` are greedy-leftmost with
backtracking, groups capture the most recent text they matched, and a
search tries successive start positions.  The matcher is bounded by a
fuel that is decremented on every step; `reFuel` is far beyond anything
the patterns and inputs treated here can consume, so the bound is never
reached. -/

inductive RE where
  | eps : RE
  | cls : (Char → Bool) → RE
  | seq : RE → RE → RE
  | alt : RE → RE → RE
  | star : RE → RE
  | opt : RE → RE
  | group : Nat → RE → RE

/-- Backtracking matcher.  `k` is the continuation receiving the rest of
the input and the captures; a `star` body is re-entered only if it
consumed input (JavaScript breaks a quantifier loop on an empty body
match; the starred bodies used here can never match empty anyway). -/
def reM : Nat → RE → List Char → List (Nat × List Char) →
    (List Char → List (Nat × List Char) → Option (List Char × List (Nat × List Char))) →
    Option (List Char × List (Nat × List Char))
  | 0, _, _, _, _ => none
  | _ + 1, .eps, cs, caps, k => k cs caps
  | _ + 1, .cls _, [], _, _ => none
  | _ + 1, .cls p, c :: cs, caps, k => if p c then k cs caps else none
  | fuel + 1, .seq a b, cs, caps, k =>
      reM fuel a cs caps (fun cs2 caps2 => reM fuel b cs2 caps2 k)
  | fuel + 1, .alt a b, cs, caps, k =>
      match reM fuel a cs caps k with
      | some r => some r
      | none => reM fuel b cs caps k
  | fuel + 1, .opt a, cs, caps, k =>
      match reM fuel a cs caps k with
      | some r => some r
      | none => k cs caps
  | fuel + 1, .star a, cs, caps, k =>
      match reM fuel a cs caps (fun cs2 caps2 =>
          if cs2.length < cs.length then reM fuel (.star a) cs2 caps2 k else none) with
      | some r => some r
      | none => k cs caps
  | fuel + 1, .group i a, cs, caps, k =>
      reM fuel a cs caps (fun cs2 caps2 =>
        k cs2 ((i, cs.take (cs.length - cs2.length)) :: caps2))

def reFuel : Nat := 1000000

/-- Match `re` anchored at the start of `cs`; on success return the
matched text, the rest of the input, and the captures. -/
def reRun (re : RE) (cs : List Char) :
    Option (List Char × List Char × List (Nat × List Char)) :=
  match reM reFuel re cs [] (fun rest caps => some (rest, caps)) with
  | none => none
  | some (rest, caps) => some (cs.take (cs.length - rest.length), rest, caps)

/-- Unanchored search: first match over successive start positions, as
in `String.prototype.match` without the `g` flag. -/
def reFind (re : RE) : List Char → Option (List Char × List Char × List (Nat × List Char))
  | [] => reRun re []
  | c :: cs2 =>
    match reRun re (c :: cs2) with
    | some r => some r
    | none => reFind re cs2

/-- `RegExp.prototype.test` (unanchored). -/
def reTest (re : RE) (cs : List Char) : Bool := (reFind re cs).isSome

/-- `String.prototype.match` with the `g` flag: all successive matched
substrings.  The patterns used with it cannot match the empty string,
so every match advances; the fuel (one beyond the input length at the
top call) bounds the number of matches. -/
def reFindAll (re : RE) : Nat → List Char → List (List Char)
  | 0, _ => []
  | fuel + 1, cs =>
    match reFind re cs with
    | none => []
    | some (matched, rest, _) => matched :: reFindAll re fuel rest

/-- Most recent capture for group `i`. -/
def getCap (caps : List (Nat × List Char)) (i : Nat) : Option (List Char) :=
  (caps.find? (fun p => p.1 = i)).map Prod.snd

/-! ## The source's regular expressions as `RE` terms -/

def chr (c : Char) : RE := .cls (fun x => x = c)

/-- Case-insensitive literal character (the `/i` flag). -/
def chri (c : Char) : RE := .cls (fun x => x.toLower = c.toLower)

def strRE : List Char → RE
  | [] => .eps
  | c :: cs => .seq (chr c) (strRE cs)

def striRE : List Char → RE
  | [] => .eps
  | c :: cs => .seq (chri c) (striRE cs)

def striS (s : String) : RE := striRE s.data

def reDigit : RE := .cls isDigitC

def reNonDigit : RE := .cls (fun c => !isDigitC c)

def reSpace : RE := .cls isJsSpace

def rePlus (r : RE) : RE := .seq r (.star r)

/-- `-?\d+(?:\.\d+)?` as capture group `i`. -/
def signedDecRE (i : Nat) : RE :=
  .group i (.seq (.opt (chr '-'))
    (.seq (rePlus reDigit) (.opt (.seq (chr '.') (rePlus reDigit)))))

/-- `geo.ts` line 77: `@(-?\d+(?:\.\d+)?),(-?\d+(?:\.\d+)?)` (the `/i`
flag is irrelevant: the pattern contains no letters). -/
def atPairRE : RE :=
  .seq (chr '@') (.seq (signedDecRE 1) (.seq (chr ',') (signedDecRE 2)))

/-- `geo.ts` lines 86 and 170:
`(-?\d+(?:\.\d+)?)\s*[, ]\s*(-?\d+(?:\.\d+)?)`. -/
def decimalPairRE : RE :=
  .seq (signedDecRE 1) (.seq (.star reSpace)
    (.seq (.cls (fun c => c = ',' || c = ' '))
      (.seq (.star reSpace) (signedDecRE 2))))

/-- `geo.ts` lines 158–160:
`lat(?:itude)?\s*[:=]\s*(-?\d+(?:\.\d+)?)\s*[,;\s]+lon(?:gitude)?\s*[:=]\s*(-?\d+(?:\.\d+)?)` with `/i`. -/
def labelPairRE : RE :=
  .seq (striS ("lat")) (.seq (.opt (striS ("itude")))
  (.seq (.star reSpace) (.seq (.cls (fun c => c = ':' || c = '='))
  (.seq (.star reSpace) (.seq (signedDecRE 1)
  (.seq (rePlus (.cls (fun c => c = ',' || c = ';' || isJsSpace c)))
  (.seq (striS ("lon")) (.seq (.opt (striS ("gitude")))
  (.seq (.star reSpace) (.seq (.cls (fun c => c = ':' || c = '='))
  (.seq (.star reSpace) (signedDecRE 2))))))))))))

/-- `\d{1,3}` (greedy). -/
def rep13 : RE := .seq reDigit (.opt (.seq reDigit (.opt reDigit)))

/-- `\d{1,2}` (greedy). -/
def rep12 : RE := .seq reDigit (.opt reDigit)

/-- One DMS half:
`(\d{1,3})\D+(\d{1,2})?\D*(\d{1,2}(?:\.\d+)?)?\D*([HEMI])` with capture
groups `base .. base+3`; the hemisphere class is case-insensitive
(`/i`). -/
def dmsHalfRE (base : Nat) (hemis : List Char) : RE :=
  .seq (.group base rep13)
  (.seq (rePlus reNonDigit)
  (.seq (.opt (.group (base + 1) rep12))
  (.seq (.star reNonDigit)
  (.seq (.opt (.group (base + 2) (.seq rep12 (.opt (.seq (chr '.') (rePlus reDigit))))))
  (.seq (.star reNonDigit)
  (.group (base + 3) (.cls (fun c => hemis.contains c.toUpper))))))))

/-- `[^\dA-Z]+` under `/i`: neither digit nor ASCII letter. -/
def dmsSepRE : RE :=
  rePlus (.cls (fun c => !isDigitC c && !('A' ≤ c.toUpper && c.toUpper ≤ 'Z')))

/-- `geo.ts` lines 109–111 (latitude-then-longitude DMS). -/
def dmsLatLonRE : RE :=
  .seq (dmsHalfRE 1 ['N', 'S']) (.seq dmsSepRE (dmsHalfRE 5 ['E', 'W']))

/-- `geo.ts` lines 118–120 (longitude-then-latitude DMS). -/
def dmsLonLatRE : RE :=
  .seq (dmsHalfRE 1 ['E', 'W']) (.seq dmsSepRE (dmsHalfRE 5 ['N', 'S']))

/-- `coordinate-providers.ts` line 44: `^geo:\s*-?\d` with `/i`
(anchored: used with `reRun`). -/
def geoUriRE : RE :=
  .seq (striS ("geo")) (.seq (chr ':')
    (.seq (.star reSpace) (.seq (.opt (chr '-')) reDigit)))

/-- `coordinate-providers.ts` line 50: `^https?:\/\/` with `/i`
(anchored: used with `reRun`). -/
def httpSchemeRE : RE :=
  .seq (striS ("http")) (.seq (.opt (chri 's'))
    (.seq (chr ':') (.seq (chr '/') (chr '/'))))

/-- `coordinate-providers.ts` line 65: `\@-?\d[\d.]*,-?[\d.]+`. -/
def atLooseRE : RE :=
  .seq (chr '@') (.seq (.opt (chr '-')) (.seq reDigit
    (.seq (.star (.cls (fun c => isDigitC c || c = '.')))
      (.seq (chr ',') (.seq (.opt (chr '-'))
        (rePlus (.cls (fun c => isDigitC c || c = '.'))))))))

/-- The global pattern `-?\d+(?:\.\d+)?` of `parseFlatCoordinate` (no
capture groups). -/
def numScanRE : RE :=
  .seq (.opt (chr '-')) (.seq (rePlus reDigit) (.opt (.seq (chr '.') (rePlus reDigit))))

/-! ## Number conversion

`Number(...)` applied to the decimal shapes captured by the patterns
above, as an exact rational. -/

def digitsToNat : List Char → Nat :=
  List.foldl (fun n c => n * 10 + (c.toNat - 48)) 0

def numberOfNN (cs : List Char) : ℚ :=
  let intPart := cs.takeWhile isDigitC
  let rest := cs.dropWhile isDigitC
  let frac :=
    match rest with
    | '.' :: t => t.takeWhile isDigitC
    | _ => []
  (digitsToNat intPart : ℚ) + (digitsToNat frac : ℚ) / 10 ^ frac.length

def numberOf (cs : List Char) : ℚ :=
  match cs with
  | '-' :: t => -(numberOfNN t)
  | _ => numberOfNN cs

/-- `Number` applied to an optional capture; an absent group would give
`NaN` in JavaScript, but every use below reads a group that is present
whenever the surrounding pattern matched. -/
def capNumber (caps : List (Nat × List Char)) (i : Nat) : ℚ :=
  match getCap caps i with
  | some s => numberOf s
  | none => 0

/-! ## URL model

A model of the WHATWG `URL` constructor covering what the source
reads: success or failure of parsing, the host, and the query
parameters.  A string with no leading scheme fails to parse (this is
the behaviour driving `parseCoordinatePairFromUrl`, which never
prepends a scheme).  For `http`/`https` URLs the authority is split
off, hosts containing forbidden characters and non-numeric ports are
rejected.  IDNA/percent encoding of hosts and path normalization are
out of scope for the inputs treated here. -/

structure JsUrl where
  scheme : List Char
  host : List Char
  port : List Char
  path : List Char
  query : List Char
deriving DecidableEq

def isSchemeStart (c : Char) : Bool := 'a' ≤ c.toLower && c.toLower ≤ 'z'

def isSchemeChar (c : Char) : Bool :=
  isSchemeStart c || isDigitC c || c = '+' || c = '-' || c = '.'

def splitScheme (cs : List Char) : Option (List Char × List Char) :=
  match cs with
  | [] => none
  | c :: _ =>
    if isSchemeStart c then
      match cs.dropWhile isSchemeChar with
      | ':' :: r => some ((cs.takeWhile isSchemeChar).map Char.toLower, r)
      | _ => none
    else none

/-- Strip userinfo: keep what follows the last `@`. -/
def afterLastAt (cs : List Char) : List Char :=
  (cs.reverse.takeWhile (fun c => c ≠ '@')).reverse

/-- Split `host[:port]` at the last colon. -/
def splitHostPort (cs : List Char) : List Char × List Char :=
  if cs.contains ':' then
    (((cs.reverse.dropWhile (fun c => c ≠ ':')).drop 1).reverse,
      (cs.reverse.takeWhile (fun c => c ≠ ':')).reverse)
  else (cs, [])

def isForbiddenHostChar (c : Char) : Bool :=
  c = ' ' || c = '\t' || c = '\n' || c = '\r' || c = '%' || c = '<' || c = '>' ||
    c = '[' || c = ']' || c = '^' || c = '|' || c = '\\'

def parseUrl (cs : List Char) : Option JsUrl :=
  match splitScheme cs with
  | none => none
  | some (scheme, rest) =>
    if scheme = ['h', 't', 't', 'p'] || scheme = ['h', 't', 't', 'p', 's'] then
      match rest with
      | '/' :: '/' :: rest2 =>
        let authority := rest2.takeWhile (fun c => c ≠ '/' && c ≠ '?' && c ≠ '#')
        let afterAuth := rest2.dropWhile (fun c => c ≠ '/' && c ≠ '?' && c ≠ '#')
        let hp := splitHostPort (afterLastAt authority)
        if hp.1 = [] || hp.1.any isForbiddenHostChar || !hp.2.all isDigitC then none
        else
          let path := afterAuth.takeWhile (fun c => c ≠ '?' && c ≠ '#')
          let afterPath := afterAuth.dropWhile (fun c => c ≠ '?' && c ≠ '#')
          let query :=
            match afterPath with
            | '?' :: q => q.takeWhile (fun c => c ≠ '#')
            | _ => []
          some ⟨scheme, hp.1.map Char.toLower, hp.2, path, query⟩
      | _ => none
    else
      let path := rest.takeWhile (fun c => c ≠ '?' && c ≠ '#')
      let afterPath := rest.dropWhile (fun c => c ≠ '?' && c ≠ '#')
      let query :=
        match afterPath with
        | '?' :: q => q.takeWhile (fun c => c ≠ '#')
        | _ => []
      some ⟨scheme, [], [], path, query⟩

/-- `application/x-www-form-urlencoded` decoding: `+` is a space and
`%hh` a byte. -/
def hexVal (c : Char) : Option Nat :=
  if isDigitC c then some (c.toNat - 48)
  else if 'a' ≤ c.toLower && c.toLower ≤ 'f' then some (c.toLower.toNat - 87)
  else none

def formDecode : List Char → List Char
  | [] => []
  | '%' :: h1 :: h2 :: rest =>
    match hexVal h1, hexVal h2 with
    | some v1, some v2 => Char.ofNat (16 * v1 + v2) :: formDecode rest
    | _, _ => '%' :: formDecode (h1 :: h2 :: rest)
  | '+' :: rest => ' ' :: formDecode rest
  | c :: rest => c :: formDecode rest

/-- Split a query string on `&`. -/
def splitSeg : Nat → List Char → List (List Char)
  | 0, _ => []
  | fuel + 1, cs =>
    match cs with
    | [] => []
    | _ =>
      let seg := cs.takeWhile (fun c => c ≠ '&')
      let rest := cs.dropWhile (fun c => c ≠ '&')
      seg ::
        match rest with
        | '&' :: r => splitSeg fuel r
        | _ => []

/-- `url.searchParams.get(name)`. -/
def getParam (url : JsUrl) (name : List Char) : Option (List Char) :=
  (splitSeg (url.query.length + 1) url.query).findSome? fun seg =>
    if seg = [] then none
    else
      let key := seg.takeWhile (fun c => c ≠ '=')
      let rest := seg.dropWhile (fun c => c ≠ '=')
      let value :=
        match rest with
        | '=' :: v => v
        | _ => []
      if formDecode key = name then some (formDecode value) else none

/-- `url.href`: a straightforward serialization of the model. -/
def hrefOf (url : JsUrl) : List Char :=
  if url.host ≠ [] then
    url.scheme ++ (':' :: '/' :: '/' :: []) ++ url.host ++
      (if url.port = [] then [] else ':' :: url.port) ++
      (if url.path = [] then ['/'] else url.path) ++
      (if url.query = [] then [] else '?' :: url.query)
  else
    url.scheme ++ [':'] ++ url.path ++
      (if url.query = [] then [] else '?' :: url.query)

/-! ## Coordinate parser (`geo.ts` lines 76–199) -/

/-- `geo.ts` `parseCoordinatePairFromUrl`: first an `@lat,lon`
substring; otherwise `new URL(raw)` — with no scheme-prepending, so a
scheme-less string throws and yields `null` — and then a
`lat,lon`-shaped pair inside the `q` or `ll` query parameter.  The
empty string is falsy in the `if (q)` test. -/
def parseCoordinatePairFromUrl (raw : List Char) : Option (ℚ × ℚ) :=
  match reFind atPairRE raw with
  | some (_, _, caps) => some (capNumber caps 1, capNumber caps 2)
  | none =>
    match parseUrl raw with
    | none => none
    | some url =>
      match
        (match getParam url ['q'] with
          | some v => some v
          | none => getParam url ['l', 'l']) with
      | some q =>
        if q = [] then none
        else
          match reFind decimalPairRE q with
          | some (_, _, caps) => some (capNumber caps 1, capNumber caps 2)
          | none => none
      | none => none

/-- `geo.ts` `dmsToDecimal`. -/
def dmsToDecimal (degrees : List Char) (minutes seconds hemi : Option (List Char)) : ℚ :=
  let deg := |numberOf degrees|
  let minV :=
    match minutes with
    | some m => numberOf m
    | none => 0
  let sec :=
    match seconds with
    | some s => numberOf s
    | none => 0
  let sign : ℚ :=
    match hemi with
    | some h => if h.map Char.toUpper = ['S'] || h.map Char.toUpper = ['W'] then -1 else 1
    | none => 1
  sign * (deg + minV / 60 + sec / 3600)

/-- `geo.ts` `parseDmsPair`: uppercase the text, try
latitude-then-longitude, then longitude-then-latitude. -/
def parseDmsPair (raw : List Char) : Option (ℚ × ℚ) :=
  let text := raw.map Char.toUpper
  match reFind dmsLatLonRE text with
  | some (_, _, caps) =>
    some (dmsToDecimal ((getCap caps 1).getD []) (getCap caps 2) (getCap caps 3) (getCap caps 4),
      dmsToDecimal ((getCap caps 5).getD []) (getCap caps 6) (getCap caps 7) (getCap caps 8))
  | none =>
    match reFind dmsLonLatRE text with
    | some (_, _, caps) =>
      some (dmsToDecimal ((getCap caps 5).getD []) (getCap caps 6) (getCap caps 7) (getCap caps 8),
        dmsToDecimal ((getCap caps 1).getD []) (getCap caps 2) (getCap caps 3) (getCap caps 4))
    | none => none

/-- `geo.ts` `isValidLatLon`; `Number.isFinite` is constantly true in
the exact model. -/
def isValidLatLon (lat lon : ℚ) : Bool :=
  decide ((-90 : ℚ) ≤ lat ∧ lat ≤ 90 ∧ (-180 : ℚ) ≤ lon ∧ lon ≤ 180)

/-- The labeled-pair recognizer of `parseGlobeCoordinate` (lines
158–168). -/
def labelPairMatch (input : List Char) : Option (ℚ × ℚ) :=
  match reFind labelPairRE input with
  | some (_, _, caps) => some (capNumber caps 1, capNumber caps 2)
  | none => none

/-- The bare decimal-pair recognizer of `parseGlobeCoordinate` (lines
170–178). -/
def decimalPairMatch (input : List Char) : Option (ℚ × ℚ) :=
  match reFind decimalPairRE input with
  | some (_, _, caps) => some (capNumber caps 1, capNumber caps 2)
  | none => none

/-- `parseGlobeCoordinate` after the URL recognizer declined: DMS, then
labeled pair, then bare decimal pair (`geo.ts` lines 149–180). -/
def parseGlobeCoordinateTail (input : List Char) : ParseResult (GlobeCoordinate ℚ) :=
  match parseDmsPair input with
  | some (lat, lon) =>
    if isValidLatLon lat lon then .ok ⟨lat, normalizeLon lon⟩ else .err ("out_of_range")
  | none =>
    match labelPairMatch input with
    | some (lat, lon) =>
      if isValidLatLon lat lon then .ok ⟨lat, normalizeLon lon⟩ else .err ("out_of_range")
    | none =>
      match decimalPairMatch input with
      | some (lat, lon) =>
        if isValidLatLon lat lon then .ok ⟨lat, normalizeLon lon⟩ else .err ("out_of_range")
      | none => .err ("invalid_format")

/-- `geo.ts` `parseGlobeCoordinate`. -/
def parseGlobeCoordinate (raw : String) : ParseResult (GlobeCoordinate ℚ) :=
  let input := jsTrim raw.data
  if input = [] then .err ("empty")
  else
    match parseCoordinatePairFromUrl input with
    | some (lat, lon) =>
      if isValidLatLon lat lon then .ok ⟨lat, normalizeLon lon⟩ else .err ("out_of_range")
    | none => parseGlobeCoordinateTail input

/-- `Number.isFinite`: constantly true in the exact-rational model (no
`NaN`/`Infinity` exist), kept so the source's check and its
`invalid_number` branch appear in the translation. -/
def jsIsFinite (_ : ℚ) : Bool := true

/-- The numbers extracted by matching `-?\d+(?:\.\d+)?` globally over
the trimmed input. -/
def extractNumbers (input : List Char) : List ℚ :=
  (reFindAll numScanRE (input.length + 1) input).map numberOf

/-- `geo.ts` `parseFlatCoordinate`.  A null match result and a match
list shorter than 2 take the same branch in the source. -/
def parseFlatCoordinate (raw : String) : ParseResult (FlatCoordinate ℚ) :=
  let values := extractNumbers (jsTrim raw.data)
  if values.length < 2 then .err ("invalid_format")
  else
    match values with
    | x :: y :: rest =>
      let z :=
        match rest with
        | zv :: _ => zv
        | [] => 0
      if jsIsFinite x && jsIsFinite y && jsIsFinite z then .ok ⟨x, y, z⟩
      else .err ("invalid_number")
    | _ => .err ("invalid_format")

/-! ## Provider detector (`coordinate-providers.ts`) -/

inductive CoordinateProviderId where
  | google_maps
  | apple_maps
  | openstreetmap
  | bing_maps
  | here_wego
  | waze
  | yandex_maps
  | mapy_cz
  | baidu_maps
  | geo_uri
  | what3words
  | mapbox
  | copied_link
deriving DecidableEq

def altList : List RE → RE
  | [] => .cls (fun _ => false)
  | [r] => r
  | r :: rs => .alt r (altList rs)

def wordCharRE : RE :=
  .cls (fun c => isDigitC c || ('a' ≤ c.toLower && c.toLower ≤ 'z') || c = '_')

/-- `coordinate-providers.ts` `PROVIDER_PATTERNS` (all `/i`). -/
def PROVIDER_PATTERNS : List (CoordinateProviderId × RE) :=
  [(.google_maps, altList
      [striS ("maps.google."), striS ("google.com/maps"),
        .seq (striS ("google.co.")) (.seq (rePlus wordCharRE) (striS ("/maps"))),
        striS ("goo.gl/maps")]),
    (.apple_maps, striS ("maps.apple.com")),
    (.openstreetmap, altList
      [striS ("openstreetmap.org"), striS ("osm.org"), striS ("www.osm.org")]),
    (.bing_maps, striS ("bing.com/maps")),
    (.here_wego, altList
      [striS ("here.com"), striS ("wego.here.com"), striS ("wego.here.net")]),
    (.waze, striS ("waze.com")),
    (.yandex_maps, .seq (striS ("yandex."))
      (.seq (altList [striS ("com"), striS ("ru")]) (striS ("/maps")))),
    (.mapy_cz, striS ("mapy.cz")),
    (.baidu_maps, altList [striS ("baidu.com/maps"), striS ("map.baidu.com")]),
    (.what3words, striS ("what3words.com")),
    (.mapbox, striS ("mapbox.com"))]

/-- `coordinate-providers.ts` `detectCoordinateProvider`. -/
def detectCoordinateProvider (raw : String) : Option CoordinateProviderId :=
  let trimmed := jsTrim raw.data
  if trimmed = [] then none
  else if (reRun geoUriRE trimmed).isSome then some .geo_uri
  else
    let urlString :=
      if (reRun httpSchemeRE trimmed).isSome then trimmed
      else ('h' :: 't' :: 't' :: 'p' :: 's' :: ':' :: '/' :: '/' :: trimmed)
    match parseUrl urlString with
    | none => none
    | some url =>
      let fullUrl := hrefOf url
      match PROVIDER_PATTERNS.findSome? (fun pr =>
          if reTest pr.2 fullUrl || reTest pr.2 url.host then some pr.1 else none) with
      | some id => some id
      | none =>
        if reTest atLooseRE fullUrl || (getParam url ['q']).isSome ||
            (getParam url ['l', 'l']).isSome then
          some .copied_link
        else none

/-- The range invariant of a geographic point, over the reals (the
real-valued counterpart of `isValidLatLon`; finiteness is vacuous in
the exact model). -/
def validGlobePoint (p : GlobeCoordinate ℝ) : Prop :=
  -90 ≤ p.lat ∧ p.lat ≤ 90 ∧ -180 ≤ p.lon ∧ p.lon ≤ 180

/-! # Theorems

Shared helper lemmas first, then one theorem per claim (with its
witness or counterexample). -/

/-- On `[-180, 180)` the wrap-around normalization is the identity. -/
theorem normalizeLon_eq_self [FloorRing K] (l : K) (h1 : -180 ≤ l) (h2 : l < 180) :
    normalizeLon l = l := by
  unfold normalizeLon jsRem jsTrunc
  have hb : (0 : K) ≤ (l + 540) / 360 := by
    apply div_nonneg <;> linarith
  rw [if_pos hb]
  have hf : Int.floor ((l + 540) / 360) = 1 := by
    rw [Int.floor_eq_iff]
    constructor
    · push_cast
      rw [le_div_iff₀ (by norm_num : (0 : K) < 360)]
      linarith
    · push_cast
      rw [div_lt_iff₀ (by norm_num : (0 : K) < 360)]
      linarith
  rw [hf]
  push_cast
  ring

/-- At the right endpoint the normalization wraps `180` to `-180`. -/
theorem normalizeLon_180 [FloorRing K] : normalizeLon (180 : K) = -180 := by
  unfold normalizeLon jsRem jsTrunc
  have hb : (0 : K) ≤ ((180 : K) + 540) / 360 := by positivity
  rw [if_pos hb]
  have he : ((180 : K) + 540) / 360 = ((2 : ℤ) : K) := by push_cast; norm_num
  rw [he, Int.floor_intCast]
  push_cast
  ring

/-- For an input already in `[-180, 180]` the normalized longitude
stays in `[-180, 180]`. -/
theorem normalizeLon_mem [FloorRing K] (l : K) (h1 : -180 ≤ l) (h2 : l ≤ 180) :
    -180 ≤ normalizeLon l ∧ normalizeLon l ≤ 180 := by
  unfold normalizeLon jsRem jsTrunc
  have hb : (0 : K) ≤ (l + 540) / 360 := by
    apply div_nonneg <;> linarith
  rw [if_pos hb]
  have hlow : ((Int.floor ((l + 540) / 360) : K)) ≤ (l + 540) / 360 := Int.floor_le _
  have hhigh : (l + 540) / 360 < (Int.floor ((l + 540) / 360) : K) + 1 :=
    Int.lt_floor_add_one _
  have h360 : (0 : K) < 360 := by norm_num
  have ha : ((Int.floor ((l + 540) / 360) : K)) * 360 ≤ l + 540 := by
    rw [← le_div_iff₀ h360]
    exact hlow
  have hc : l + 540 < ((Int.floor ((l + 540) / 360) : K) + 1) * 360 := by
    rw [← div_lt_iff₀ h360]
    exact hhigh
  constructor <;> nlinarith

/-- `isValidLatLon` unfolded to its range conditions. -/
theorem isValidLatLon_iff (lat lon : ℚ) :
    isValidLatLon lat lon = true ↔
      (-90 ≤ lat ∧ lat ≤ 90 ∧ -180 ≤ lon ∧ lon ≤ 180) := by
  simp [isValidLatLon]

/-- The uniform validation block of `parseGlobeCoordinate`: a success
coming out of it satisfies the range invariant. -/
theorem checkedPair_ok_in_range (lat lon : ℚ) (p : GlobeCoordinate ℚ)
    (h : (if isValidLatLon lat lon then
        ParseResult.ok (⟨lat, normalizeLon lon⟩ : GlobeCoordinate ℚ)
      else .err ("out_of_range")) = .ok p) :
    -90 ≤ p.lat ∧ p.lat ≤ 90 ∧ -180 ≤ p.lon ∧ p.lon ≤ 180 := by
  split at h
  case isTrue hv =>
    obtain ⟨h1, h2, h3, h4⟩ := (isValidLatLon_iff lat lon).mp hv
    obtain ⟨h5, h6⟩ := normalizeLon_mem lon h3 h4
    cases h
    exact ⟨h1, h2, h5, h6⟩
  case isFalse hv => cases h

theorem numberOf_1 : numberOf ['1'] = 1 := by
  have h1 : List.takeWhile isDigitC ['1'] = ['1'] := by decide
  have h2 : List.dropWhile isDigitC ['1'] = [] := by decide
  have h3 : digitsToNat ['1'] = 1 := by decide
  simp [numberOf, numberOfNN, h1, h2, h3, digitsToNat]

theorem numberOf_2 : numberOf ['2'] = 2 := by
  have h1 : List.takeWhile isDigitC ['2'] = ['2'] := by decide
  have h2 : List.dropWhile isDigitC ['2'] = [] := by decide
  have h3 : digitsToNat ['2'] = 2 := by decide
  simp [numberOf, numberOfNN, h1, h2, h3, digitsToNat]

theorem numberOf_8 : numberOf ['8'] = 8 := by
  have h1 : List.takeWhile isDigitC ['8'] = ['8'] := by decide
  have h2 : List.dropWhile isDigitC ['8'] = [] := by decide
  have h3 : digitsToNat ['8'] = 8 := by decide
  simp [numberOf, numberOfNN, h1, h2, h3, digitsToNat]

theorem numberOf_9 : numberOf ['9'] = 9 := by
  have h1 : List.takeWhile isDigitC ['9'] = ['9'] := by decide
  have h2 : List.dropWhile isDigitC ['9'] = [] := by decide
  have h3 : digitsToNat ['9'] = 9 := by decide
  simp [numberOf, numberOfNN, h1, h2, h3, digitsToNat]

/-- **C3, counterexample.**  The single number `"42"` makes the planar
parser fail with the `invalid_format` (UnrecognizedFormat) reason, not
`invalid_number` (InvalidNumber) as the claim states. -/
theorem parseFlat_42_counterexample :
    parseFlatCoordinate ("42") = .err ("invalid_format") ∧
      (ParseResult.err ("invalid_format") : ParseResult (FlatCoordinate ℚ)) ≠
        .err ("invalid_number") := by
  constructor
  · have ht : jsTrim ("42").data = ['4', '2'] := by decide
    have h : reFindAll numScanRE ((['4', '2'] : List Char).length + 1) ['4', '2'] =
        [['4', '2']] := by decide
    simp only [parseFlatCoordinate, extractNumbers, ht, h, List.map, List.length]
    norm_num
  · decide

/-- **C3.**  When fewer than two signed decimal numbers can be
extracted from the input, `parseFlatCoordinate` fails with the
`invalid_format` (UnrecognizedFormat) reason — the same branch used
for a null match — and the `invalid_number` branch is unreachable
there. -/
theorem parseFlat_few_numbers_unrecognized (s : String)
    (h : (extractNumbers (jsTrim s.data)).length < 2) :
    parseFlatCoordinate s = .err ("invalid_format") := by
  unfold parseFlatCoordinate
  rw [if_pos h]

/-- **C3, witness.** -/
theorem parseFlat_few_numbers_unrecognized_witness :
    parseFlatCoordinate ("42") = .err ("invalid_format") :=
  parseFlat_few_numbers_unrecognized ("42") (by decide)

/-- **C4, counterexample.**  `180` lies in `[-180, 180]` but
normalization maps it to `-180`, so normalizing an already-in-range
longitude is not the identity at the right endpoint. -/
theorem normalizeLon_at_180_counterexample :
    normalizeLon (180 : ℚ) = -180 ∧ (-180 : ℚ) ≠ 180 := by
  refine ⟨normalizeLon_180, by norm_num⟩

/-- **C4, amended.**  The parser's normalization
`((l + 540) % 360) - 180` is the identity on the half-open interval
`[-180, 180)` (at `l = 180` it returns `-180`), and normalizing
`180.0000001` yields `-179.9999999`, which lies in
`(-180, -179.999]`. -/
theorem normalizeLon_identity_on_halfopen (l : ℚ) (h1 : -180 ≤ l) (h2 : l < 180) :
    normalizeLon l = l ∧
      normalizeLon (180.0000001 : ℚ) = -179.9999999 ∧
      -180 < (-179.9999999 : ℚ) ∧ (-179.9999999 : ℚ) ≤ -179.999 := by
  refine ⟨normalizeLon_eq_self l h1 h2, ?_, by norm_num, by norm_num⟩
  unfold normalizeLon jsRem jsTrunc
  have hb : (0 : ℚ) ≤ ((180.0000001 : ℚ) + 540) / 360 := by positivity
  rw [if_pos hb]
  have hf : Int.floor (((180.0000001 : ℚ) + 540) / 360) = 2 := by
    rw [Int.floor_eq_iff]
    constructor
    · push_cast
      rw [le_div_iff₀ (by norm_num : (0 : ℚ) < 360)]
      norm_num
    · push_cast
      rw [div_lt_iff₀ (by norm_num : (0 : ℚ) < 360)]
      norm_num
  rw [hf]
  push_cast
  norm_num

/-- **C4, witness.** -/
theorem normalizeLon_identity_on_halfopen_witness :
    normalizeLon (90 : ℚ) = 90 ∧
      normalizeLon (180.0000001 : ℚ) = -179.9999999 ∧
      -180 < (-179.9999999 : ℚ) ∧ (-179.9999999 : ℚ) ≤ -179.999 :=
  normalizeLon_identity_on_halfopen 90 (by norm_num) (by norm_num)

/-- **C9, counterexample.**  `"geo: x"` begins with the `geo:` scheme
prefix but the detector's pattern `^geo:\s*-?\d` demands a digit, so
detection does not return the `geo_uri` provider (URL coercion then
fails on the invalid port, yielding no provider at all). -/
theorem detect_geo_prefix_counterexample :
    startsWithL ("geo:").data (jsTrim ("geo: x").data) = true ∧
      detectCoordinateProvider ("geo: x") = none ∧
      (none : Option CoordinateProviderId) ≠ some .geo_uri :=
  ⟨by decide, by decide, by decide⟩

/-- **C9, amended.**  For every input whose trimmed text matches the
anchored pattern `^geo:\s*-?\d` (the `geo:` prefix followed by optional
whitespace and an optionally signed digit), `detectCoordinateProvider`
immediately returns the `geo_uri` provider, before and independently of
any URL-based table matching. -/
theorem detect_geo_uri_immediate (s : String)
    (h : (reRun geoUriRE (jsTrim s.data)).isSome = true) :
    detectCoordinateProvider s = some .geo_uri := by
  have hne : ¬jsTrim s.data = [] := by
    intro he
    rw [he] at h
    exact absurd h (by decide)
  unfold detectCoordinateProvider
  rw [if_neg hne, if_pos h]

/-- **C9, witness.** -/
theorem detect_geo_uri_immediate_witness :
    detectCoordinateProvider ("geo:12,34") = some .geo_uri :=
  detect_geo_uri_immediate ("geo:12,34") (by decide)

/-- **C10.**  An empty or whitespace-only input makes
`parseFlatCoordinate` fail with `invalid_format` — the same reason
code as any input with fewer than two numbers, there being no
dedicated empty-input branch — while `parseGlobeCoordinate` fails with
the dedicated `empty` reason before any recognizer runs. -/
theorem parsers_on_blank_input (s : String) (h : jsTrim s.data = []) :
    parseFlatCoordinate s = .err ("invalid_format") ∧
      parseGlobeCoordinate s = .err ("empty") := by
  constructor
  · have he : extractNumbers ([] : List Char) = [] := by decide
    unfold parseFlatCoordinate
    rw [h, he]
    norm_num
  · unfold parseGlobeCoordinate
    rw [h]
    rw [if_pos rfl]

/-- **C5.**  Every successful `parseGlobeCoordinate` result satisfies
the range invariant: latitude in `[-90, 90]` and longitude in
`[-180, 180]` after wrap-around normalization (finiteness is vacuous
in the exact model). -/
theorem parseGlobe_ok_in_range (s : String) (p : GlobeCoordinate ℚ)
    (h : parseGlobeCoordinate s = .ok p) :
    -90 ≤ p.lat ∧ p.lat ≤ 90 ∧ -180 ≤ p.lon ∧ p.lon ≤ 180 := by
  unfold parseGlobeCoordinate at h
  dsimp only at h
  split at h
  · cases h
  · split at h
    case h_1 lat lon heq =>
      exact checkedPair_ok_in_range lat lon p h
    case h_2 =>
      unfold parseGlobeCoordinateTail at h
      split at h
      case h_1 lat lon heq =>
        exact checkedPair_ok_in_range lat lon p h
      case h_2 =>
        split at h
        case h_1 lat lon heq =>
          exact checkedPair_ok_in_range lat lon p h
        case h_2 =>
          split at h
          case h_1 lat lon heq =>
            exact checkedPair_ok_in_range lat lon p h
          case h_2 => cases h

/-- The parser accepts `"1, 2"` through the bare decimal-pair
recognizer (helper for the C5 witness). -/
theorem parseGlobe_12_eval : parseGlobeCoordinate ("1, 2") = .ok ⟨1, 2⟩ := by
  have ht : jsTrim ("1, 2").data = ['1', ',', ' ', '2'] := by decide
  have h1 : parseCoordinatePairFromUrl ['1', ',', ' ', '2'] = none := by decide
  have h2 : parseDmsPair ['1', ',', ' ', '2'] = none := by decide
  have h3 : labelPairMatch ['1', ',', ' ', '2'] = none := by decide
  have h4 : reFind decimalPairRE ['1', ',', ' ', '2'] =
      some (['1', ',', ' ', '2'], [], [(2, ['2']), (1, ['1'])]) := by decide
  have hg1 : getCap [(2, ['2']), (1, ['1'])] 1 = some ['1'] := by decide
  have hg2 : getCap [(2, ['2']), (1, ['1'])] 2 = some ['2'] := by decide
  have hv : isValidLatLon 1 2 = true := by decide
  have hn : normalizeLon (2 : ℚ) = 2 := normalizeLon_eq_self 2 (by norm_num) (by norm_num)
  unfold parseGlobeCoordinate parseGlobeCoordinateTail decimalPairMatch
  rw [ht]
  dsimp only
  rw [if_neg (by decide : ¬(['1', ',', ' ', '2'] : List Char) = [])]
  rw [h1]
  dsimp only
  rw [h2]
  dsimp only
  rw [h3]
  dsimp only
  rw [h4]
  dsimp only
  simp only [capNumber, hg1, hg2]
  rw [numberOf_1, numberOf_2]
  rw [if_pos hv, hn]

/-- **C5, witness.** -/
theorem parseGlobe_ok_in_range_witness :
    -90 ≤ ((⟨1, 2⟩ : GlobeCoordinate ℚ)).lat ∧
      ((⟨1, 2⟩ : GlobeCoordinate ℚ)).lat ≤ 90 ∧
      -180 ≤ ((⟨1, 2⟩ : GlobeCoordinate ℚ)).lon ∧
      ((⟨1, 2⟩ : GlobeCoordinate ℚ)).lon ≤ 180 :=
  parseGlobe_ok_in_range ("1, 2") ⟨1, 2⟩ parseGlobe_12_eval

/-- **C2, counterexample.**  The input `"example.com/8,9?q=10,20"` has
no scheme, no `@lat,lon` substring, and (after scheme-prepending, which
only the provider detector performs) would carry `q=10,20`; yet the
parser returns `(8, 9)` — the bare decimal-pair recognizer applied to
the raw text — because `parseCoordinatePairFromUrl` attempts
`new URL(raw)` without prepending a scheme, and a scheme-less string
fails to parse. -/
theorem parseGlobe_url_query_counterexample :
    parseGlobeCoordinate ("example.com/8,9?q=10,20") = .ok ⟨8, 9⟩ ∧
      (ParseResult.ok (⟨8, 9⟩ : GlobeCoordinate ℚ)) ≠ .ok ⟨10, 20⟩ := by
  constructor
  · have ht : jsTrim ("example.com/8,9?q=10,20").data =
        ("example.com/8,9?q=10,20").data := by decide
    have h1 : parseCoordinatePairFromUrl (("example.com/8,9?q=10,20").data) = none := by
      decide
    have h2 : parseDmsPair (("example.com/8,9?q=10,20").data) = none := by decide
    have h3 : labelPairMatch (("example.com/8,9?q=10,20").data) = none := by decide
    have h4 : reFind decimalPairRE (("example.com/8,9?q=10,20").data) =
        some (['8', ',', '9'], ['?', 'q', '=', '1', '0', ',', '2', '0'],
          [(2, ['9']), (1, ['8'])]) := by decide
    have hg1 : getCap [(2, ['9']), (1, ['8'])] 1 = some ['8'] := by decide
    have hg2 : getCap [(2, ['9']), (1, ['8'])] 2 = some ['9'] := by decide
    have hv : isValidLatLon 8 9 = true := by decide
    have hn : normalizeLon (9 : ℚ) = 9 := normalizeLon_eq_self 9 (by norm_num) (by norm_num)
    unfold parseGlobeCoordinate parseGlobeCoordinateTail decimalPairMatch
    rw [ht]
    dsimp only
    rw [if_neg (by decide : ¬("example.com/8,9?q=10,20").data = [])]
    rw [h1]
    dsimp only
    rw [h2]
    dsimp only
    rw [h3]
    dsimp only
    rw [h4]
    dsimp only
    simp only [capNumber, hg1, hg2]
    rw [numberOf_8, numberOf_9]
    rw [if_pos hv, hn]
  · decide

/-- **C2, amended.**  The geographic parser never prepends a scheme
(only the provider detector does): for any input whose trimmed text is
nonempty, contains no `@lat,lon` substring, and is not an absolute URL
(the URL constructor model rejects it), the URL recognizer yields no
match and `parseGlobeCoordinate` falls through to the lower-priority
recognizers; `q`/`ll` query parameters are only consulted for absolute
URLs. -/
theorem parseGlobe_url_requires_scheme (s : String)
    (h1 : reFind atPairRE (jsTrim s.data) = none)
    (h2 : parseUrl (jsTrim s.data) = none)
    (h3 : ¬jsTrim s.data = []) :
    parseCoordinatePairFromUrl (jsTrim s.data) = none ∧
      parseGlobeCoordinate s = parseGlobeCoordinateTail (jsTrim s.data) := by
  have hu : parseCoordinatePairFromUrl (jsTrim s.data) = none := by
    unfold parseCoordinatePairFromUrl
    rw [h1, h2]
  refine ⟨hu, ?_⟩
  unfold parseGlobeCoordinate
  dsimp only
  rw [if_neg h3, hu]

/-- **C2, witness.** -/
theorem parseGlobe_url_requires_scheme_witness :
    parseCoordinatePairFromUrl (jsTrim ("example.com/8,9?q=10,20").data) = none ∧
      parseGlobeCoordinate ("example.com/8,9?q=10,20") =
        parseGlobeCoordinateTail (jsTrim ("example.com/8,9?q=10,20").data) :=
  parseGlobe_url_requires_scheme ("example.com/8,9?q=10,20")
    (by decide) (by decide) (by decide)

/-- **C10, witness.** -/
theorem parsers_on_blank_input_witness :
    parseFlatCoordinate ("  ") = .err ("invalid_format") ∧
      parseGlobeCoordinate ("  ") = .err ("empty") :=
  parsers_on_blank_input ("  ") (by decide)

/-! ### C6: distance of a point to itself -/

theorem haversine_self (p : GlobeCoordinate ℝ) : haversineDistanceMeters realOps p p = 0 := by
  simp [haversineDistanceMeters, toRad, realOps, jsAtan2]

/-- With coincident endpoints `λ = L = 0 = λ'`, so the Vincenty loop
guard fails immediately and the initial state is returned after zero
iterations — under any interpretation of the primitives. -/
theorem vincenty_loop_self (ops : GeoOps K) (p : GlobeCoordinate K) :
    vincentyLoopResult ops p p = .done ⟨0, 0, 0, 0, 0, 0, 0, 0⟩ 0 := by
  unfold vincentyLoopResult
  dsimp only
  have hL : toRad ops (p.lon - p.lon) = 0 := by simp [toRad]
  rw [hL]
  rw [vincentyLoop]
  rw [if_neg]
  rintro ⟨ha, -⟩
  rw [sub_zero, abs_zero] at ha
  have hpos : (0 : K) < 1e-12 := by norm_num
  linarith

/-- On the all-zero final state the closing formula evaluates to
exactly `0`. -/
theorem vincenty_self (ops : GeoOps K) (p : GlobeCoordinate K) :
    vincentyDistanceMeters ops p p = 0 := by
  unfold vincentyDistanceMeters
  rw [vincenty_loop_self]
  norm_num

theorem equirect_self (p : GlobeCoordinate ℝ) :
    equirectangularDistanceMeters realOps p p = 0 := by
  simp [equirectangularDistanceMeters, toRad, realOps]

theorem flat_self (falg : FlatAlgorithm) (q : FlatCoordinate ℝ) :
    calculateFlatDistanceUnits realOps falg q q = 0 := by
  cases falg <;>
    simp [calculateFlatDistanceUnits, euclidean2DUnits, euclidean3DUnits,
      manhattan2DUnits, realOps]

theorem globe_self (galg : GlobeAlgorithm) (p : GlobeCoordinate ℝ) :
    calculateGlobeDistanceMeters realOps galg p p = 0 := by
  cases galg <;>
    simp [calculateGlobeDistanceMeters, haversine_self, vincenty_self, equirect_self]

/-- **C6.**  For every valid geographic point `p` and every geographic
algorithm, `calculateGlobeDistanceMeters alg p p = 0` exactly; and for
every planar point `q` and every planar algorithm,
`calculateFlatDistanceUnits alg q q = 0` exactly. -/
theorem distance_self_eq_zero (galg : GlobeAlgorithm) (falg : FlatAlgorithm)
    (p : GlobeCoordinate ℝ) (q : FlatCoordinate ℝ) (hp : validGlobePoint p) :
    calculateGlobeDistanceMeters realOps galg p p = 0 ∧
      calculateFlatDistanceUnits realOps falg q q = 0 :=
  ⟨globe_self galg p, flat_self falg q⟩

/-- **C6, witness.** -/
theorem distance_self_eq_zero_witness :
    calculateGlobeDistanceMeters realOps .vincenty ⟨0, 0⟩ ⟨0, 0⟩ = 0 ∧
      calculateFlatDistanceUnits realOps .euclidean2d ⟨0, 0, 0⟩ ⟨0, 0, 0⟩ = 0 :=
  distance_self_eq_zero .vincenty .euclidean2d ⟨0, 0⟩ ⟨0, 0, 0⟩
    (by norm_num [validGlobePoint])

/-! ### C8: geodesic circle -/

theorem destinationPoint_0_eq_360 (c : GlobeCoordinate ℝ) (r : ℝ) :
    destinationPoint realOps c 0 r = destinationPoint realOps c 360 r := by
  have hc : Real.cos ((360:ℝ) * Real.pi / 180) = Real.cos ((0:ℝ) * Real.pi / 180) := by
    rw [show (360:ℝ) * Real.pi / 180 = 2 * Real.pi by ring]
    rw [show (0:ℝ) * Real.pi / 180 = 0 by ring]
    rw [Real.cos_two_pi, Real.cos_zero]
  have hs : Real.sin ((360:ℝ) * Real.pi / 180) = Real.sin ((0:ℝ) * Real.pi / 180) := by
    rw [show (360:ℝ) * Real.pi / 180 = 2 * Real.pi by ring]
    rw [show (0:ℝ) * Real.pi / 180 = 0 by ring]
    rw [Real.sin_two_pi, Real.sin_zero]
  simp only [destinationPoint, toRad, toDeg, realOps]
  rw [hc, hs]

theorem buildGeodesicCircle_first (c : GlobeCoordinate ℝ) (r : ℝ) (steps : Nat) :
    (buildGeodesicCircle realOps c r steps).head? = some (destinationPoint realOps c 0 r) := by
  unfold buildGeodesicCircle
  rw [List.range_succ_eq_map, List.map_cons, List.head?_cons]
  norm_num

theorem buildGeodesicCircle_last (c : GlobeCoordinate ℝ) (r : ℝ) (steps : Nat)
    (hs : 1 ≤ steps) :
    (buildGeodesicCircle realOps c r steps).getLast? =
      some (destinationPoint realOps c 360 r) := by
  unfold buildGeodesicCircle
  rw [List.range_succ, List.map_append]
  simp only [List.map_cons, List.map_nil]
  rw [List.getLast?_concat]
  have hne : ((steps : ℝ)) ≠ 0 := Nat.cast_ne_zero.mpr (by omega)
  rw [show (360:ℝ) * (steps:ℝ) / (steps:ℝ) = 360 by
    rw [mul_div_assoc, div_self hne]
    norm_num]

/-- **C8.**  For every center, radius `r ≥ 0` and step count
`steps ≥ 1`, `buildGeodesicCircle` returns exactly `steps + 1` points,
and its first and last points coincide: the destination point at
bearing `0°` equals the destination point at bearing `360°`, so the
ring is closed. -/
theorem buildGeodesicCircle_closed (c : GlobeCoordinate ℝ) (r : ℝ) (steps : Nat)
    (hr : 0 ≤ r) (hs : 1 ≤ steps) :
    (buildGeodesicCircle realOps c r steps).length = steps + 1 ∧
      (buildGeodesicCircle realOps c r steps).head? =
        some (destinationPoint realOps c 0 r) ∧
      (buildGeodesicCircle realOps c r steps).getLast? =
        some (destinationPoint realOps c 360 r) ∧
      destinationPoint realOps c 0 r = destinationPoint realOps c 360 r := by
  refine ⟨?_, buildGeodesicCircle_first c r steps, buildGeodesicCircle_last c r steps hs,
    destinationPoint_0_eq_360 c r⟩
  simp [buildGeodesicCircle]

/-- **C8, witness.** -/
theorem buildGeodesicCircle_closed_witness :
    (buildGeodesicCircle realOps ⟨0, 0⟩ 0 1).length = 1 + 1 ∧
      (buildGeodesicCircle realOps ⟨0, 0⟩ 0 1).head? =
        some (destinationPoint realOps ⟨0, 0⟩ 0 0) ∧
      (buildGeodesicCircle realOps ⟨0, 0⟩ 0 1).getLast? =
        some (destinationPoint realOps ⟨0, 0⟩ 360 0) ∧
      destinationPoint realOps ⟨0, 0⟩ 0 0 = destinationPoint realOps ⟨0, 0⟩ 360 0 :=
  buildGeodesicCircle_closed ⟨0, 0⟩ 0 1 (by norm_num) (by norm_num)

/-! ### C1: Vincenty iteration-cap fallback

The oscillating interpretation `oscOps` makes the λ-update the map
`λ ↦ -λ` (starting from `λ = L = 1`), so successive λ values always
differ by at least `2` and the loop runs into the 200-iteration cap;
this witnesses the fallback concretely. -/

theorem osc_step_a (fuel iteration : Nat) (h2 : iteration < 200) :
    vincentyLoop oscOps 1 1 1 1 1 (fuel + 1) ⟨1, -1, 1, 0, 0, 1, 0, 0⟩ iteration =
      vincentyLoop oscOps 1 1 1 1 1 fuel ⟨-1, 1, 1, 2, -(2 / WGS84_F), 1, 0, 0⟩
        (iteration + 1) := by
  rw [vincentyLoop]
  rw [if_pos ⟨by norm_num, h2⟩]
  dsimp only [oscOps]
  rw [if_neg (by norm_num : ¬(1 : ℚ) = 0)]
  congr 2
  all_goals norm_num [WGS84_F]

theorem osc_step_b (fuel iteration : Nat) (h2 : iteration < 200) :
    vincentyLoop oscOps 1 1 1 1 1 (fuel + 1) ⟨-1, 1, 1, 2, -(2 / WGS84_F), 1, 0, 0⟩
        iteration =
      vincentyLoop oscOps 1 1 1 1 1 fuel ⟨1, -1, 1, 0, 0, 1, 0, 0⟩ (iteration + 1) := by
  rw [vincentyLoop]
  rw [if_pos ⟨by norm_num, h2⟩]
  dsimp only [oscOps]
  rw [if_neg (by norm_num : ¬(1 : ℚ) = 0)]
  congr 2
  all_goals norm_num [WGS84_F]

theorem osc_step_init (fuel : Nat) :
    vincentyLoop oscOps 1 1 1 1 1 (fuel + 1) ⟨1, 0, 0, 0, 0, 0, 0, 0⟩ 0 =
      vincentyLoop oscOps 1 1 1 1 1 fuel ⟨-1, 1, 1, 2, -(2 / WGS84_F), 1, 0, 0⟩ 1 := by
  rw [vincentyLoop]
  rw [if_pos ⟨by norm_num, by norm_num⟩]
  dsimp only [oscOps]
  rw [if_neg (by norm_num : ¬(1 : ℚ) = 0)]
  congr 2
  all_goals norm_num [WGS84_F]

theorem osc_halt (fuel : Nat) (st : VinState ℚ) :
    vincentyLoop oscOps 1 1 1 1 1 fuel st 200 = .done st 200 := by
  rw [vincentyLoop.eq_def]
  dsimp only
  rw [if_neg]
  rintro ⟨-, hlt⟩
  omega

theorem osc_reach : ∀ j iteration, iteration + 2 * j = 200 →
    vincentyLoop oscOps 1 1 1 1 1 (2 * j + 1) ⟨1, -1, 1, 0, 0, 1, 0, 0⟩ iteration =
      .done ⟨1, -1, 1, 0, 0, 1, 0, 0⟩ 200 := by
  intro j
  induction j with
  | zero =>
    intro iteration h
    have he : iteration = 200 := by omega
    subst he
    exact osc_halt (2 * 0 + 1) _
  | succ k ih =>
    intro iteration h
    rw [show 2 * (k + 1) + 1 = ((2 * k + 1) + 1) + 1 from by ring]
    rw [osc_step_a ((2 * k + 1) + 1) iteration (by omega)]
    rw [osc_step_b (2 * k + 1) (iteration + 1) (by omega)]
    exact ih (iteration + 2) (by omega)

/-- Under `oscOps` the λ-iteration from `(0,0)` to `(0,1)` exhausts all
200 iterations, with `|λ - λ'| = 2 > 1e-12` at exit and `sinσ = 1 ≠ 0`
throughout. -/
theorem osc_loop_full :
    vincentyLoopResult oscOps ⟨0, 0⟩ ⟨0, 1⟩ = .done ⟨1, -1, 1, 0, 0, 1, 0, 0⟩ 200 := by
  unfold vincentyLoopResult
  dsimp only
  have hL : toRad oscOps ((1 : ℚ) - 0) = 1 := by
    simp [toRad, oscOps]
  have hz : toRad oscOps (0 : ℚ) = 0 := by
    simp [toRad, oscOps]
  rw [hL, hz]
  have hU : oscOps.atan ((1 - WGS84_F) * oscOps.tan 0) = 1 := by
    dsimp only [oscOps]
    rw [mul_one_div]
    rw [div_self (by norm_num [WGS84_F] : (1 : ℚ) - WGS84_F ≠ 0)]
  rw [hU]
  have hsin : oscOps.sin 1 = 1 := rfl
  have hcos : oscOps.cos 1 = 1 := rfl
  rw [hsin, hcos]
  rw [show (201 : ℕ) = 200 + 1 from rfl]
  rw [osc_step_init 200]
  rw [show (200 : ℕ) = 199 + 1 from rfl]
  rw [osc_step_b 199 1 (by omega)]
  rw [show (199 : ℕ) = 2 * 99 + 1 from rfl]
  exact osc_reach 99 2 (by omega)

/-- **C1.**  Whenever the Vincenty λ-iteration exits at the cap of 200
iterations with successive λ values still differing by more than
`1e-12` (and without the `sinσ = 0` early return, which would yield the
`zero` outcome instead), `vincentyDistanceMeters` returns exactly
`haversineDistanceMeters` on the same pair — under any interpretation
of the numeric primitives. -/
theorem vincenty_cap_fallback (ops : GeoOps K) (a b : GlobeCoordinate K) (st : VinState K)
    (hcap : vincentyLoopResult ops a b = .done st 200)
    (hdiff : (1e-12 : K) < |st.lambda - st.lambdaP|) :
    vincentyDistanceMeters ops a b = haversineDistanceMeters ops a b := by
  unfold vincentyDistanceMeters
  rw [hcap]
  norm_num

/-- **C1, witness.** -/
theorem vincenty_cap_fallback_witness :
    vincentyDistanceMeters oscOps ⟨0, 0⟩ ⟨0, 1⟩ =
      haversineDistanceMeters oscOps ⟨0, 0⟩ ⟨0, 1⟩ :=
  vincenty_cap_fallback oscOps ⟨0, 0⟩ ⟨0, 1⟩ ⟨1, -1, 1, 0, 0, 1, 0, 0⟩ osc_loop_full
    (by norm_num)

end CoordCalc
